import Mathlib

/-!
Shallow embedding of `orbax/checkpoint/type_handlers.py` (the type-dispatch
and serialization engine for PyTree checkpoint leaves), together with proofs
about its behaviour.

Modelling conventions:
* Tensorstore specs are JSON-like documents; we embed them as ordered
  association lists of string keys (`Dict`), matching Python dict semantics:
  assignment replaces the value of an existing key in place, otherwise
  appends the new key at the end.
* Numpy dtypes are embedded as their name strings; the Python code only ever
  converts a dtype to its canonical name via jnp.dtype on both paths, so the
  conversion is the identity here.
* I/O against the tensorstore backend is embedded as an explicit trace of
  operations plus an oracle function standing for what the backend returns
  for a read at a given spec.
* Python raises ValueError at every failure site of this module; the Lean
  embedding distinguishes the raise sites by constructor.
-/

/-- JSON-like values appearing in tensorstore specs: strings (driver names,
dtype names, paths), tuples of naturals (shapes, chunk shapes), and nested
objects. -/
inductive JVal where
  | str : String → JVal
  | nums : List Nat → JVal
  | obj : List (String × JVal) → JVal

/-- A JSON object / Python dict: an ordered association list. -/
abbrev Dict := List (String × JVal)

/-- Python dict assignment d[k] = v: replace the value of the (unique)
existing occurrence of the key, keeping its position, otherwise append the
pair at the end. -/
def dictSet (d : Dict) (k : String) (v : JVal) : Dict :=
  match d with
  | [] => [(k, v)]
  | (k1, v1) :: rest => if k1 = k then (k, v) :: rest else (k1, v1) :: dictSet rest k v

/-- Python dict lookup d[k] / d.get(k). -/
def dictGet (d : Dict) (k : String) : Option JVal :=
  match d with
  | [] => none
  | (k1, v1) :: rest => if k1 = k then some v1 else dictGet rest k

/-- Embeds `_get_cast_tspec_serialize`.  The Python function builds the
envelope dict with keys base and driver, then appends the outer dtype key
(set to the value's source dtype), then assigns the destination dtype on the
inner base dict.  Because the inner base aliases the caller's dict, that last
assignment also mutates the argument (the ParamInfo's tspec); the embedding
therefore returns a pair: the envelope, and the updated argument dict. -/
def get_cast_tspec_serialize (tspec0 : Dict) (valueDtype : String)
    (argsDtype : Option String) : Dict × Dict :=
  let tspec : Dict := [("base", JVal.obj tspec0), ("driver", JVal.str "cast")]
  let tspec := dictSet tspec "dtype" (JVal.str valueDtype)
  let innerDtype := match argsDtype with
    | none => valueDtype
    | some d => d
  let base := dictSet tspec0 "dtype" (JVal.str innerDtype)
  (dictSet tspec "base" (JVal.obj base), base)

/-- Embeds `_get_cast_tspec_deserialize`: no cast requested leaves the spec
untouched; a requested dtype wraps the spec in a cast envelope whose outer
dtype is the requested one. -/
def get_cast_tspec_deserialize (tspec : Dict) (argsDtype : Option String) : Dict :=
  match argsDtype with
  | none => tspec
  | some d => [("base", JVal.obj tspec), ("driver", JVal.str "cast"), ("dtype", JVal.str d)]

/-- A replicated numpy array: shape, dtype name, flat data.  Only the parts
of numpy semantics that the handlers inspect are embedded: `ndim` is the
length of the shape, and `item` extracts the single element of a
0-dimensional array. -/
structure NpArray where
  shape : List Nat
  dtype : String
  data : List Int

/-- numpy's `.item()` on the embedded array. -/
def NpArray.item (a : NpArray) : Int := a.data.headD 0

/-- Embeds the `ParamInfo` dataclass: internal information describing one
parameter (name, aggregation flag, tensorstore spec). -/
structure ParamInfo where
  name : Option String := none
  aggregate : Option Bool := none
  tspec : Option Dict := none

/-- Embeds the `SaveArgs` dataclass. -/
structure SaveArgs where
  aggregate : Bool := false
  dtype : Option String := none

/-- Embeds the `RestoreArgs` dataclass.  `restore_type` defaults to
np.ndarray in the source; types are embedded by `PyType` below, but the
field is only carried, never read, by the handlers in this module, so it is
embedded as a plain string name to keep the declaration order simple. -/
structure RestoreArgs where
  lazy : Bool := false
  restore_type : String := "np.ndarray"
  dtype : Option String := none

/-- One tensorstore backend operation performed by a handler, in order:
opening a spec (with or without create), the write data-copy phase, a read.
The commit future returned by serialize is deliberately not an operation
here: the source returns it unawaited. -/
inductive TsOp where
  | openOp : Dict → Bool → TsOp
  | writeOp : TsOp
  | readOp : TsOp

/-- Failure sites of this module.  Python raises `ValueError` at each of
them; the constructors record which raise statement fired. -/
inductive Err where
  | unknownType
  | alreadyRegistered
  | mustProvideArrayRestoreArgs
  | shardingCannotBeNone
  | notAScalar
  deriving Repr, DecidableEq

/-- Embeds `NumpyHandler.param_info`.  `specForPath` stands for the external
`serialization.get_tensorstore_spec` (the backend's path-to-base-spec
builder); the source then installs a metadata object with a gzip compressor
and chunking equal to the full shape. -/
def NumpyHandler.param_info (specForPath : String → Dict)
    (directory name : String) (value : NpArray) : ParamInfo :=
  let path := directory ++ "/" ++ name
  let tspec := specForPath path
  let tspec := dictSet tspec "metadata"
    (JVal.obj [("compressor", JVal.obj [("id", JVal.str "gzip")]),
               ("shape", JVal.nums value.shape),
               ("chunks", JVal.nums value.shape)])
  { name := some name, tspec := some tspec }

/-- Embeds `NumpyHandler.serialize`: builds the cast envelope from the
descriptor's spec, opens it with create, writes and awaits the copy phase.
Returns the performed operations and the post-call descriptor; the second
component of `get_cast_tspec_serialize` is the descriptor's tspec dict after
the call, because the Python helper mutates it through the alias.
(`info.tspec` is always set by `param_info`; the `getD` default covers the
never-exercised None case of the Optional field.) -/
def NumpyHandler.serialize (value : NpArray) (info : ParamInfo)
    (args : Option SaveArgs) : List TsOp × ParamInfo :=
  let a := args.getD {}
  let r := get_cast_tspec_serialize (info.tspec.getD []) value.dtype a.dtype
  ([TsOp.openOp r.1 true, TsOp.writeOp], { info with tspec := some r.2 })

/-- Embeds `NumpyHandler.deserialize`: builds the (possibly cast-wrapped)
spec, opens it read-only and reads.  `backend` is the oracle for what the
tensorstore read returns at a given spec.  The returned trace lists the
operations actually performed during the call. -/
def NumpyHandler.deserialize (backend : Dict → NpArray) (info : ParamInfo)
    (args : Option RestoreArgs) : List TsOp × NpArray :=
  let a := args.getD {}
  let tspec := get_cast_tspec_deserialize (info.tspec.getD []) a.dtype
  ([TsOp.openOp tspec false, TsOp.readOp], backend tspec)

/-- Embeds `ScalarHandler.deserialize`: delegates to the superclass
(NumpyHandler), then raises unless the restored result is 0-dimensional, and
unwraps it with `.item()`. -/
def ScalarHandler.deserialize (backend : Dict → NpArray) (info : ParamInfo)
    (args : Option RestoreArgs) : List TsOp × Except Err Int :=
  let r := NumpyHandler.deserialize backend info args
  if r.2.shape.length ≠ 0 then (r.1, Except.error Err.notAScalar)
  else (r.1, Except.ok r.2.item)

/-- Device meshes are only carried around by this module, never inspected;
a list of device ids suffices. -/
abbrev Mesh := List Nat

/-- Partition specs are only carried around, never inspected. -/
abbrev PartitionSpec := List (Option String)

/-- Embeds the `ArrayRestoreArgs` dataclass (extends RestoreArgs; the
source overrides the `restore_type` default to GlobalDeviceArray). -/
structure ArrayRestoreArgs where
  lazy : Bool := false
  restore_type : String := "GlobalDeviceArray"
  dtype : Option String := none
  mesh : Option Mesh := none
  mesh_axes : Option PartitionSpec := none
  global_shape : Option (List Nat) := none

/-- The request `ArrayHandler.deserialize` hands to the backend's
distributed-read primitive (`serialization.async_deserialize`): the sharding
built from mesh and axes, the possibly cast-wrapped spec, and the optional
global-shape override. -/
structure ArrayReadRequest where
  sharding : Mesh × PartitionSpec
  tspec : Dict
  global_shape : Option (List Nat)

/-- Embeds `ArrayHandler.deserialize`: requires args (raises otherwise),
requires mesh and mesh_axes to be set (raises otherwise), then builds the
sharding and the cast-wrapped spec and invokes the distributed read.  The
Python signature takes `RestoreArgs` and does an unchecked cast to
`ArrayRestoreArgs`; the embedding takes the target type directly. -/
def ArrayHandler.deserialize (info : ParamInfo) (args : Option ArrayRestoreArgs) :
    Except Err ArrayReadRequest :=
  match args with
  | none => Except.error Err.mustProvideArrayRestoreArgs
  | some a =>
    match a.mesh, a.mesh_axes with
    | some m, some ax =>
        Except.ok { sharding := (m, ax),
                    tspec := get_cast_tspec_deserialize (info.tspec.getD []) a.dtype,
                    global_shape := a.global_shape }
    | none, _ => Except.error Err.shardingCannotBeNone
    | some _, none => Except.error Err.shardingCannotBeNone

/-- The Python classes that appear in this module's registry predicates,
plus `pystr` as a representative unregistered class. -/
inductive PyType where
  | pybool
  | pyint
  | pyfloat
  | npnumber
  | npndarray
  | deviceArray
  | globalDeviceArray
  | jaxArray
  | pystr
  deriving Repr, DecidableEq

/-- Python's `issubclass` restricted to the classes above.  Every class is a
subclass of itself, and `bool` is a subclass of `int`; no other subclass
relation holds between these particular classes. -/
def issubclass (a b : PyType) : Bool :=
  a == b || (a == PyType.pybool && b == PyType.pyint)

/-- The handler object held by a registry entry.  The three handler classes
of the module are behaviourally distinct values; `custom` stands for handler
objects registered by extensions. -/
inductive Handler where
  | scalarHandler
  | numpyHandler
  | arrayHandler
  | custom : Nat → Handler
  deriving Repr, DecidableEq

/-- A registry entry: a type predicate and the handler it selects. -/
abbrev RegistryEntry := (PyType → Bool) × Handler

abbrev Registry := List RegistryEntry

/-- Fallback entry for positional access in theorem statements. -/
def dummyEntry : RegistryEntry := (fun _ => false, Handler.scalarHandler)

/-- Embeds `_TYPE_REGISTRY`, the default registry contents, in source order.
The last predicate additionally tests the process-wide `jax.config.jax_array`
flag, taken here as the parameter `jax_array_flag`. -/
def TYPE_REGISTRY (jax_array_flag : Bool) : Registry :=
  [(fun ty => issubclass ty PyType.pyint, Handler.scalarHandler),
   (fun ty => issubclass ty PyType.pyfloat, Handler.scalarHandler),
   (fun ty => issubclass ty PyType.npnumber, Handler.scalarHandler),
   (fun ty => issubclass ty PyType.npndarray, Handler.numpyHandler),
   (fun ty => issubclass ty PyType.deviceArray, Handler.numpyHandler),
   (fun ty => issubclass ty PyType.globalDeviceArray, Handler.arrayHandler),
   (fun ty => issubclass ty PyType.jaxArray && jax_array_flag, Handler.arrayHandler)]

/-- Embeds `get_type_handler`: scan the registry in order, return the
handler of the first predicate accepting the type, raise if none does. -/
def get_type_handler (reg : Registry) (ty : PyType) : Except Err Handler :=
  match reg with
  | [] => Except.error Err.unknownType
  | (f, h) :: rest => if f ty then Except.ok h else get_type_handler rest ty

/-- Embeds `register_type_handler`.  The default predicate is
is-subclass-of the registered class; registration first looks the class up
(catching the lookup failure), raises when a handler already resolves and
`override` is false, and otherwise appends the new entry at the end of the
registry.  The Python function mutates the module-global registry; the
embedding passes the registry state explicitly and returns the new state. -/
def register_type_handler (reg : Registry) (ty : PyType) (handler : Handler)
    (func : Option (PyType → Bool)) (override : Bool) : Except Err Registry :=
  let f := match func with
    | none => fun t => issubclass t ty
    | some g => g
  let existing := (get_type_handler reg ty).toOption
  if existing.isSome && !override then Except.error Err.alreadyRegistered
  else Except.ok (reg ++ [(f, handler)])

/-- A concrete base-spec builder standing in for the backend's
path-to-spec primitive in concrete instances. -/
def exSpecForPath (path : String) : Dict :=
  [("driver", JVal.str "zarr"),
   ("kvstore", JVal.obj [("driver", JVal.str "file"), ("path", JVal.str path)])]

/-- A concrete 4x4 float32 value. -/
def exValue : NpArray := { shape := [4, 4], dtype := "float32", data := [] }

/-- The descriptor `param_info` computes for `exValue` under directory dir
and name p. -/
def exInfo : ParamInfo := NumpyHandler.param_info exSpecForPath "dir" "p" exValue

/-- The registry state after re-registering int with a new custom handler
under override. -/
def regAfterOverride : Registry :=
  ((register_type_handler (TYPE_REGISTRY false) PyType.pyint
      (Handler.custom 0) none true).toOption).getD []

theorem dictGet_dictSet_self (d : Dict) (k : String) (v : JVal) :
    dictGet (dictSet d k v) k = some v := by
  induction d with
  | nil => simp [dictSet, dictGet]
  | cons p rest ih =>
    by_cases h : p.1 = k
    · simp [dictSet, dictGet, h]
    · simp [dictSet, dictGet, h, ih]

theorem dictGet_dictSet_ne (d : Dict) (k k1 : String) (v : JVal) (h : k1 ≠ k) :
    dictGet (dictSet d k v) k1 = dictGet d k1 := by
  have h2 : k ≠ k1 := fun hk => h hk.symm
  induction d with
  | nil => simp [dictSet, dictGet, h2]
  | cons p rest ih =>
    by_cases h3 : p.1 = k
    · simp [dictSet, dictGet, h3, h2]
    · by_cases h4 : p.1 = k1 <;> simp [dictSet, dictGet, h3, h4, ih, h]

/-- Appending entries to a registry does not change resolution for a type
that already resolves: the scan still stops at the same first match. -/
theorem get_type_handler_append (reg tail : Registry) (ty : PyType) (h : Handler)
    (hres : get_type_handler reg ty = Except.ok h) :
    get_type_handler (reg ++ tail) ty = Except.ok h := by
  induction reg with
  | nil => simp [get_type_handler] at hres
  | cons e rest ih =>
    by_cases hf : e.1 ty
    · simpa [get_type_handler, hf] using hres
    · simp [get_type_handler, hf] at hres ⊢
      exact ih hres

/-- Claim C1 counterexample: serializing a float32 value with requested cast
target bfloat16, the envelope's outer dtype is the source dtype float32 —
not the requested cast target, as the claim states it should be. -/
theorem cast_serialize_claim_counterexample :
    dictGet (get_cast_tspec_serialize [("kvstore", JVal.str "d/p")] "float32"
      (some "bfloat16")).1 "dtype" ≠ some (JVal.str "bfloat16") := by
  simp [get_cast_tspec_serialize, dictSet, dictGet]

/-- Claim C1 (amended): the cast-on-serialize builder returns an envelope
with driver cast whose outer dtype always equals the value's source dtype,
and whose inner base dtype equals the source dtype when no cast target is
requested and the requested cast target when one is (the backend converts
from the in-memory source dtype to the on-disk target during the write). -/
theorem cast_serialize_spec (tspec : Dict) (src : String) (tgt : Option String) :
    dictGet (get_cast_tspec_serialize tspec src tgt).1 "driver" = some (JVal.str "cast")
  ∧ dictGet (get_cast_tspec_serialize tspec src tgt).1 "dtype" = some (JVal.str src)
  ∧ dictGet (get_cast_tspec_serialize tspec src tgt).1 "base"
      = some (JVal.obj (get_cast_tspec_serialize tspec src tgt).2)
  ∧ dictGet (get_cast_tspec_serialize tspec src tgt).2 "dtype"
      = some (JVal.str (tgt.getD src)) := by
  cases tgt with
  | none =>
    exact ⟨rfl, rfl, rfl, dictGet_dictSet_self tspec "dtype" (JVal.str src)⟩
  | some d =>
    exact ⟨rfl, rfl, rfl, dictGet_dictSet_self tspec "dtype" (JVal.str d)⟩

/-- Claim C8: the cast-on-deserialize builder returns the raw spec unchanged
when no cast target is requested, and a cast envelope with keys base, driver
cast and the requested outer dtype when one is. -/
theorem cast_deserialize_spec (tspec : Dict) (d : String) :
    get_cast_tspec_deserialize tspec none = tspec
  ∧ get_cast_tspec_deserialize tspec (some d)
      = [("base", JVal.obj tspec), ("driver", JVal.str "cast"), ("dtype", JVal.str d)] :=
  ⟨rfl, rfl⟩

/-- Claim C9: the numpy handler's param_info computes a descriptor whose
spec extends the backend spec for the composed path directory/name with a
metadata object carrying a gzip compressor and chunks equal to the value's
full shape; every key other than metadata is exactly the backend's. -/
theorem numpy_param_info_spec (specForPath : String → Dict)
    (directory name : String) (value : NpArray) (k : String) (hk : k ≠ "metadata") :
    ∃ t, (NumpyHandler.param_info specForPath directory name value).tspec = some t
      ∧ dictGet t "metadata"
          = some (JVal.obj [("compressor", JVal.obj [("id", JVal.str "gzip")]),
                            ("shape", JVal.nums value.shape),
                            ("chunks", JVal.nums value.shape)])
      ∧ dictGet t k = dictGet (specForPath (directory ++ "/" ++ name)) k := by
  refine ⟨_, rfl, dictGet_dictSet_self _ _ _, dictGet_dictSet_ne _ _ _ _ hk⟩

/-- Claim C9 witness: instantiated at the concrete backend-spec builder, a
4x4 value and the driver key. -/
theorem numpy_param_info_spec_witness :
    ("driver" : String) ≠ "metadata"
  ∧ (∃ t, (NumpyHandler.param_info exSpecForPath "dir" "p" exValue).tspec = some t
      ∧ dictGet t "metadata"
          = some (JVal.obj [("compressor", JVal.obj [("id", JVal.str "gzip")]),
                            ("shape", JVal.nums exValue.shape),
                            ("chunks", JVal.nums exValue.shape)])
      ∧ dictGet t "driver" = dictGet (exSpecForPath ("dir" ++ "/" ++ "p")) "driver") :=
  ⟨by decide, numpy_param_info_spec exSpecForPath "dir" "p" exValue "driver" (by decide)⟩

/-- Claim C4: at the failing input (float32 4x4 value, default SaveArgs,
descriptor computed by param_info) the descriptor's spec has no dtype key
before serialize and carries dtype float32 afterwards — the cast helper's
assignment to the inner base dict mutates the caller's descriptor through
the alias, so serialize does not leave the descriptor's spec unchanged. -/
theorem numpy_serialize_mutates_descriptor :
    exInfo.tspec.map (fun t => dictGet t "dtype") = some none
  ∧ ((NumpyHandler.serialize exValue exInfo none).2).tspec.map (fun t => dictGet t "dtype")
      = some (some (JVal.str "float32"))
  ∧ ((NumpyHandler.serialize exValue exInfo none).2).tspec ≠ exInfo.tspec := by
  have c1 : exInfo.tspec.map (fun t => dictGet t "dtype") = some none := rfl
  have c2 : ((NumpyHandler.serialize exValue exInfo none).2).tspec.map
      (fun t => dictGet t "dtype") = some (some (JVal.str "float32")) := rfl
  refine ⟨c1, c2, fun h => ?_⟩
  rw [h, c1] at c2
  exact Option.noConfusion (Option.some.inj c2)

/-- Claim C3 counterexample: with the lazy flag set in the restore
arguments, the numpy handler's deserialize still performs its read during
the call itself — its operation trace opens the spec and reads, identically
to the non-lazy trace — and returns the backend's array rather than any
deferred handle. -/
theorem numpy_deserialize_lazy_counterexample :
    (NumpyHandler.deserialize (fun _ => { shape := [], dtype := "float32", data := [7] })
        exInfo (some { lazy := true })).1
      = [TsOp.openOp (exInfo.tspec.getD []) false, TsOp.readOp]
  ∧ (NumpyHandler.deserialize (fun _ => { shape := [], dtype := "float32", data := [7] })
        exInfo (some { lazy := true }))
      = (NumpyHandler.deserialize (fun _ => { shape := [], dtype := "float32", data := [7] })
        exInfo (some { lazy := false })) :=
  ⟨rfl, rfl⟩

/-- Claim C3 (amended): the handler's deserialize ignores the lazy flag —
for every backend, descriptor and restore arguments it opens the (possibly
cast-wrapped) spec and performs the read eagerly during the call, with trace
and result independent of the lazy flag; the deferred-restore mechanism the
flag is documented for is not implemented by the handlers. -/
theorem numpy_deserialize_ignores_lazy (backend : Dict → NpArray) (info : ParamInfo)
    (a : RestoreArgs) :
    (NumpyHandler.deserialize backend info (some a)).1
      = [TsOp.openOp (get_cast_tspec_deserialize (info.tspec.getD []) a.dtype) false,
         TsOp.readOp]
  ∧ NumpyHandler.deserialize backend info (some { a with lazy := true })
      = NumpyHandler.deserialize backend info (some { a with lazy := false }) :=
  ⟨rfl, rfl⟩

/-- Claim C7: the scalar adapter's deserialize delegates to the numpy
handler and then unwraps a 0-dimensional result to its plain value with
item, while any result of nonzero dimension fails with the not-a-scalar
error. -/
theorem scalar_deserialize_spec (backend : Dict → NpArray) (info : ParamInfo)
    (args : Option RestoreArgs) :
    ((NumpyHandler.deserialize backend info args).2.shape.length = 0 →
      (ScalarHandler.deserialize backend info args).2
        = Except.ok (NumpyHandler.deserialize backend info args).2.item)
  ∧ ((NumpyHandler.deserialize backend info args).2.shape.length ≠ 0 →
      (ScalarHandler.deserialize backend info args).2 = Except.error Err.notAScalar) := by
  constructor <;> intro h <;> simp [ScalarHandler.deserialize, h]

/-- Claim C7 witness: a stored 0-dimensional scalar unwraps to the plain
value 42, and a stored one-element 1-dimensional array is rejected. -/
theorem scalar_deserialize_spec_witness :
    (ScalarHandler.deserialize (fun _ => { shape := [], dtype := "int64", data := [42] })
        exInfo none).2 = Except.ok 42
  ∧ (ScalarHandler.deserialize (fun _ => { shape := [1], dtype := "int64", data := [42] })
        exInfo none).2 = Except.error Err.notAScalar :=
  ⟨(scalar_deserialize_spec (fun _ => { shape := [], dtype := "int64", data := [42] })
      exInfo none).1 rfl,
   (scalar_deserialize_spec (fun _ => { shape := [1], dtype := "int64", data := [42] })
      exInfo none).2 (by decide)⟩

/-- Claim C6: the sharded-array handler's deserialize fails with the
must-provide-args error when the restore arguments are absent, and with the
sharding-cannot-be-None error when the mesh or the mesh axes is unset,
whatever the remaining options are; no request reaches the backend in
either case. -/
theorem array_deserialize_requires_sharding (info : ParamInfo) (a : ArrayRestoreArgs) :
    ArrayHandler.deserialize info none = Except.error Err.mustProvideArrayRestoreArgs
  ∧ (a.mesh = none ∨ a.mesh_axes = none →
      ArrayHandler.deserialize info (some a) = Except.error Err.shardingCannotBeNone) := by
  refine ⟨rfl, fun h => ?_⟩
  rcases h with h | h
  · simp [ArrayHandler.deserialize, h]
  · cases hm : a.mesh with
    | none => simp [ArrayHandler.deserialize, hm]
    | some m => simp [ArrayHandler.deserialize, hm, h]

/-- Claim C6 witness: restore arguments with every other option set but the
mesh absent are rejected with the sharding error, and absent arguments are
rejected with the must-provide error. -/
theorem array_deserialize_requires_sharding_witness :
    ArrayHandler.deserialize exInfo none = Except.error Err.mustProvideArrayRestoreArgs
  ∧ ArrayHandler.deserialize exInfo
      (some { lazy := true, dtype := some "float32", mesh := none,
              mesh_axes := some [some "x"], global_shape := some [8, 8] })
      = Except.error Err.shardingCannotBeNone :=
  ⟨(array_deserialize_requires_sharding exInfo
      { lazy := true, dtype := some "float32", mesh := none,
        mesh_axes := some [some "x"], global_shape := some [8, 8] }).1,
   (array_deserialize_requires_sharding exInfo
      { lazy := true, dtype := some "float32", mesh := none,
        mesh_axes := some [some "x"], global_shape := some [8, 8] }).2 (Or.inl rfl)⟩

/-- Claim C5: resolution scans the registry in registration order — either
no predicate accepts the type and the lookup fails with the unknown-type
error, or the handler returned is exactly the one paired with the first
accepting predicate, every earlier predicate rejecting the type (so a
narrower predicate registered earlier beats a broader one registered
later). -/
theorem get_type_handler_first_match (reg : Registry) (ty : PyType) :
    ((∀ e ∈ reg, e.1 ty = false)
       ∧ get_type_handler reg ty = Except.error Err.unknownType)
  ∨ (∃ i, i < reg.length
      ∧ (reg.getD i dummyEntry).1 ty = true
      ∧ (∀ j, j < i → (reg.getD j dummyEntry).1 ty = false)
      ∧ get_type_handler reg ty = Except.ok (reg.getD i dummyEntry).2) := by
  induction reg with
  | nil => exact Or.inl ⟨by simp, rfl⟩
  | cons e rest ih =>
    by_cases hf : e.1 ty = true
    · refine Or.inr ⟨0, by simp, by simpa using hf, ?_, by simp [get_type_handler, hf]⟩
      intro j hj
      exact absurd hj (Nat.not_lt_zero j)
    · have hf2 : e.1 ty = false := by simpa using hf
      rcases ih with ⟨hall, herr⟩ | ⟨i, hi, hacc, hbef, hok⟩
      · refine Or.inl ⟨?_, by simp [get_type_handler, hf2, herr]⟩
        intro e2 he2
        rcases List.mem_cons.mp he2 with h2 | h2
        · rw [h2]; exact hf2
        · exact hall e2 h2
      · refine Or.inr ⟨i + 1, by simpa using hi, by simpa using hacc, ?_,
          by simp [get_type_handler, hf2, hok]⟩
        intro j hj
        cases j with
        | zero => simpa using hf2
        | succ j2 => simpa using hbef j2 (Nat.lt_of_succ_lt_succ hj)

/-- Claim C5 witness: the first-match characterization instantiated at the
default registry and the unregistered class str (the failing branch). -/
theorem get_type_handler_first_match_witness :
    ((∀ e ∈ TYPE_REGISTRY false, e.1 PyType.pystr = false)
       ∧ get_type_handler (TYPE_REGISTRY false) PyType.pystr
           = Except.error Err.unknownType)
  ∨ (∃ i, i < (TYPE_REGISTRY false).length
      ∧ ((TYPE_REGISTRY false).getD i dummyEntry).1 PyType.pystr = true
      ∧ (∀ j, j < i → ((TYPE_REGISTRY false).getD j dummyEntry).1 PyType.pystr = false)
      ∧ get_type_handler (TYPE_REGISTRY false) PyType.pystr
          = Except.ok ((TYPE_REGISTRY false).getD i dummyEntry).2) :=
  get_type_handler_first_match (TYPE_REGISTRY false) PyType.pystr

/-- Claim C2 counterexample: re-registering int with override set succeeds,
but resolution for int afterwards still returns the originally registered
scalar handler and not the newly registered custom handler — the appended
entry sits behind the earlier matching entry in the scan. -/
theorem register_override_counterexample :
    register_type_handler (TYPE_REGISTRY false) PyType.pyint (Handler.custom 0) none true
      = Except.ok regAfterOverride
  ∧ get_type_handler regAfterOverride PyType.pyint = Except.ok Handler.scalarHandler
  ∧ Handler.scalarHandler ≠ Handler.custom 0 :=
  ⟨rfl, rfl, by decide⟩

/-- Claim C2 (amended): for a type already resolvable, registering with
override false fails with the already-registered error; registering with
override true succeeds by appending the entry, but subsequent resolution for
that type is unchanged — it still returns the handler selected by the first
accepting (earlier) predicate; the new handler takes effect only for types
no earlier entry accepts. -/
theorem register_type_handler_spec (reg : Registry) (ty : PyType) (handler : Handler)
    (func : Option (PyType → Bool)) (h0 : Handler)
    (hres : get_type_handler reg ty = Except.ok h0) :
    register_type_handler reg ty handler func false = Except.error Err.alreadyRegistered
  ∧ (∃ reg2, register_type_handler reg ty handler func true = Except.ok reg2
       ∧ get_type_handler reg2 ty = Except.ok h0) := by
  constructor
  · have hs : (get_type_handler reg ty).toOption.isSome = true := by rw [hres]; rfl
    simp [register_type_handler, hs]
  · have h1 : register_type_handler reg ty handler func true
        = Except.ok (reg ++ [((match func with
            | none => fun t => issubclass t ty
            | some g => g), handler)]) := by
      simp [register_type_handler]
    exact ⟨_, h1, get_type_handler_append reg _ ty h0 hres⟩

/-- Claim C2 witness: int already resolves to the scalar handler; both
branches instantiated there with a custom handler. -/
theorem register_type_handler_spec_witness :
    get_type_handler (TYPE_REGISTRY false) PyType.pyint = Except.ok Handler.scalarHandler
  ∧ (register_type_handler (TYPE_REGISTRY false) PyType.pyint (Handler.custom 1) none false
        = Except.error Err.alreadyRegistered
     ∧ (∃ reg2, register_type_handler (TYPE_REGISTRY false) PyType.pyint
            (Handler.custom 1) none true = Except.ok reg2
          ∧ get_type_handler reg2 PyType.pyint = Except.ok Handler.scalarHandler)) :=
  ⟨rfl, register_type_handler_spec (TYPE_REGISTRY false) PyType.pyint (Handler.custom 1)
      none Handler.scalarHandler rfl⟩

/-- Claim C10: bool is a subclass of int, so with the default registry (for
either state of the jax_array flag) the very first entry accepts bool and
resolution returns the scalar handler: bool values take the scalar
save/restore path. -/
theorem default_registry_bool_resolves_scalar :
    issubclass PyType.pybool PyType.pyint = true
  ∧ get_type_handler (TYPE_REGISTRY false) PyType.pybool = Except.ok Handler.scalarHandler
  ∧ get_type_handler (TYPE_REGISTRY true) PyType.pybool = Except.ok Handler.scalarHandler :=
  ⟨rfl, rfl, rfl⟩
